import Mathlib

/-!
Verification of the Evolve Python SDK core (packages/sdk-py/evolve): a shallow
embedding of the data model and the file-transport, checkpoint-parsing, output
validation, timeout and lifecycle logic of agent.py, utils.py, results.py,
config.py and storage_client.py, together with theorems settling the spec's
claims about them.

Python values are embedded as follows: `bytes` becomes `List Nat` with every
element below 256, `str` becomes `String`, dictionaries with known keys become
structures whose optional keys are `Option`-valued, insertion-ordered dicts
become association lists, and code that can raise becomes `Except String`.
-/

namespace EvolveSpec

/-- Well-formedness of an embedded Python `bytes` value: every byte is below 256. -/
def ValidBytes (bs : List Nat) : Prop := ∀ b ∈ bs, b < 256

instance (bs : List Nat) : Decidable (ValidBytes bs) :=
  List.decidableBAll _ bs

/-- The standard base64 alphabet used by Python's `base64.b64encode`. -/
def b64alphabet : List Char :=
  "ABCDEFGHIJKLMNOPQRSTUVWXYZabcdefghijklmnopqrstuvwxyz0123456789+/".toList

/-- Character for a 6-bit group. -/
def b64char (i : Nat) : Char := b64alphabet.getD i '?'

/-- Index of a character in the base64 alphabet. -/
def b64index (c : Char) : Nat := b64alphabet.findIdx (fun x => x == c)

/-- Encoding of a byte list into base64 characters, three bytes per four
characters, with `=` padding, as performed by `base64.b64encode`. -/
def b64encodeChunks : List Nat → List Char
  | [] => []
  | [a] => [b64char (a / 4), b64char (a % 4 * 16), '=', '=']
  | [a, b] => [b64char (a / 4), b64char (a % 4 * 16 + b / 16), b64char (b % 16 * 4), '=']
  | a :: b :: c :: rest =>
      b64char (a / 4) :: b64char (a % 4 * 16 + b / 16) ::
        b64char (b % 16 * 4 + c / 64) :: b64char (c % 64) :: b64encodeChunks rest

/-- Decoding of base64 characters back into bytes, as performed by
`base64.b64decode` on well-formed input (padding only at the end). -/
def b64decodeChunks : List Char → List Nat
  | c1 :: c2 :: c3 :: c4 :: rest =>
      if c3 = '=' then
        [b64index c1 * 4 + b64index c2 / 16]
      else if c4 = '=' then
        [b64index c1 * 4 + b64index c2 / 16,
         b64index c2 % 16 * 16 + b64index c3 / 4]
      else
        (b64index c1 * 4 + b64index c2 / 16) ::
          (b64index c2 % 16 * 16 + b64index c3 / 4) ::
          (b64index c3 % 4 * 64 + b64index c4) ::
          b64decodeChunks rest
  | _ => []

/-- Embedding of `base64.b64encode(bs).decode('utf-8')`. -/
def b64encode (bs : List Nat) : String := String.mk (b64encodeChunks bs)

/-- Embedding of `base64.b64decode(s)` for well-formed base64 text. -/
def b64decode (s : String) : List Nat := b64decodeChunks s.data

/-- Content of one file: Python `str` or `bytes` (the `Union[str, bytes]` of
the SDK's FileMap values). -/
inductive FileContent where
  | text (s : String)
  | binary (bs : List Nat)
deriving DecidableEq

/-- Well-formedness of a file content value. -/
def FileContent.wf : FileContent → Prop
  | .text _ => True
  | .binary bs => ValidBytes bs

instance : ∀ c : FileContent, Decidable c.wf
  | .text _ => inferInstanceAs (Decidable True)
  | .binary bs => inferInstanceAs (Decidable (ValidBytes bs))

/-- Wire representation of one file on the JSON-RPC bridge: a dict with a
`content` string and an optional `encoding` tag. -/
structure TransportFile where
  content : String
  encoding : Option String
deriving DecidableEq

/-- Embedding of the per-value branch of `utils._encode_files_for_transport`:
bytes become base64 with tag `"base64"`, strings are passed with tag `"text"`. -/
def encodeFileForTransport : FileContent → TransportFile
  | .binary bs => { content := b64encode bs, encoding := some "base64" }
  | .text s => { content := s, encoding := some "text" }

/-- Embedding of `utils._encode_files_for_transport` over the ordered file dict. -/
def encodeFilesForTransport (files : List (String × FileContent)) :
    List (String × TransportFile) :=
  files.map (fun f => (f.1, encodeFileForTransport f.2))

/-- Embedding of the per-value branch of `utils._decode_files_from_transport`:
`file_data.get('encoding', 'text')` compared against `'base64'`. -/
def decodeFileFromTransport (f : TransportFile) : FileContent :=
  if f.encoding.getD "text" = "base64" then .binary (b64decode f.content)
  else .text f.content

/-- Embedding of `utils._decode_files_from_transport`. -/
def decodeFilesFromTransport (encoded : List (String × TransportFile)) :
    List (String × FileContent) :=
  encoded.map (fun f => (f.1, decodeFileFromTransport f.2))

/-- Embedding of the inline file-decoding loops of `Evolve.get_output_files`
and `Evolve.download_dir` (agent.py): `response.get('encoding')` is compared
against `'base64'`; base64 content is decoded to bytes, anything else is kept
as text. -/
def decodeAgentFiles (fs : List (String × TransportFile)) : List (String × FileContent) :=
  fs.map (fun f =>
    (f.1, if f.2.encoding = some "base64" then FileContent.binary (b64decode f.2.content)
          else FileContent.text f.2.content))

/-- Embedding of `str.encode('utf-8')` via the Lean core UTF-8 encoder
(`String.toUTF8` packs exactly `s.data.flatMap String.utf8EncodeChar`). -/
def strToUTF8 (s : String) : List Nat :=
  (s.data.flatMap String.utf8EncodeChar).map (fun b => b.toNat)

/-- ByteArray from an embedded bytes value. -/
def bytesToByteArray (bs : List Nat) : ByteArray := ⟨⟨bs.map (fun b => UInt8.ofNat b)⟩⟩

/-- Embedding of `bytes.decode('utf-8')`: `none` models a raised
`UnicodeDecodeError`. -/
def decodeUtf8 (bs : List Nat) : Option String := String.fromUTF8? (bytesToByteArray bs)

-- ===========================================================================
-- results.py: CheckpointInfo, AgentResponse, OutputResult
-- ===========================================================================

/-- Bridge-side checkpoint dict: the ten keys read by the `_parse_checkpoint`
functions, each possibly absent. -/
structure CheckpointDict where
  id : Option String
  hash : Option String
  tag : Option String
  timestamp : Option String
  size_bytes : Option Int
  agent_type : Option String
  model : Option String
  workspace_mode : Option String
  parent_id : Option String
  comment : Option String
deriving DecidableEq

/-- Python falsiness of the checkpoint dict (`if not data`): true when the
dict carries none of its keys. -/
def CheckpointDict.isFalsy (d : CheckpointDict) : Bool :=
  d.id.isNone && d.hash.isNone && d.tag.isNone && d.timestamp.isNone &&
    d.size_bytes.isNone && d.agent_type.isNone && d.model.isNone &&
    d.workspace_mode.isNone && d.parent_id.isNone && d.comment.isNone

/-- Embedding of `results.CheckpointInfo` (dataclass). -/
structure CheckpointInfo where
  id : String
  hash : String
  tag : String
  timestamp : String
  size_bytes : Option Int
  agent_type : Option String
  model : Option String
  workspace_mode : Option String
  parent_id : Option String
  comment : Option String
deriving DecidableEq

/-- Embedding of the `data['k']` dict access: raises `KeyError` when absent. -/
def getRequired {α : Type} (field : Option α) (name : String) : Except String α :=
  match field with
  | some v => Except.ok v
  | none => Except.error ("KeyError: " ++ name)

/-- Embedding of `Evolve._parse_checkpoint` (agent.py lines 577-593): returns
`None` on falsy input, otherwise builds a CheckpointInfo, raising `KeyError`
when a required key is absent. -/
def agentParseCheckpoint (data : Option CheckpointDict) : Except String (Option CheckpointInfo) :=
  match data with
  | none => Except.ok none
  | some d =>
    if d.isFalsy then Except.ok none
    else do
      let i ← getRequired d.id "id"
      let h ← getRequired d.hash "hash"
      let t ← getRequired d.tag "tag"
      let ts ← getRequired d.timestamp "timestamp"
      Except.ok (some { id := i, hash := h, tag := t, timestamp := ts,
                        size_bytes := d.size_bytes, agent_type := d.agent_type,
                        model := d.model, workspace_mode := d.workspace_mode,
                        parent_id := d.parent_id, comment := d.comment })

/-- Embedding of `utils._parse_checkpoint` (utils.py lines 32-54), which has
the same body as the agent.py copy. -/
def utilsParseCheckpoint (data : Option CheckpointDict) : Except String (Option CheckpointInfo) :=
  match data with
  | none => Except.ok none
  | some d =>
    if d.isFalsy then Except.ok none
    else do
      let i ← getRequired d.id "id"
      let h ← getRequired d.hash "hash"
      let t ← getRequired d.tag "tag"
      let ts ← getRequired d.timestamp "timestamp"
      Except.ok (some { id := i, hash := h, tag := t, timestamp := ts,
                        size_bytes := d.size_bytes, agent_type := d.agent_type,
                        model := d.model, workspace_mode := d.workspace_mode,
                        parent_id := d.parent_id, comment := d.comment })

/-- Embedding of `storage_client._parse_checkpoint` (lines 160-173): no
falsiness check, the dict is parsed directly. -/
def storageParseCheckpoint (d : CheckpointDict) : Except String CheckpointInfo := do
  let i ← getRequired d.id "id"
  let h ← getRequired d.hash "hash"
  let t ← getRequired d.tag "tag"
  let ts ← getRequired d.timestamp "timestamp"
  Except.ok { id := i, hash := h, tag := t, timestamp := ts,
              size_bytes := d.size_bytes, agent_type := d.agent_type,
              model := d.model, workspace_mode := d.workspace_mode,
              parent_id := d.parent_id, comment := d.comment }

/-- Embedding of `results.AgentResponse` (dataclass). `run_id` and
`checkpoint` default to `None` when omitted at the construction site. -/
structure AgentResponse where
  sandbox_id : String
  exit_code : Int
  stdout : String
  stderr : String
  run_id : Option String
  checkpoint : Option CheckpointInfo
deriving DecidableEq

/-- Bridge response payload for the `run` and `execute_command` RPCs. The
bridge includes a `run_id` field for `run` (see tests/unit/test_cost_api.py's
mock bridge), which agent.py may or may not read. -/
structure RunBridgeResponse where
  sandbox_id : String
  run_id : Option String
  exit_code : Int
  stdout : String
  stderr : String
  checkpoint : Option CheckpointDict
deriving DecidableEq

/-- Embedding of the tail of `Evolve.run` (agent.py lines 242-248): the
`AgentResponse(...)` construction passes `sandbox_id`, `exit_code`, `stdout`,
`stderr` and `checkpoint` only, so `run_id` takes its dataclass default. -/
def runResult (r : RunBridgeResponse) : Except String AgentResponse := do
  let cp ← agentParseCheckpoint r.checkpoint
  Except.ok { sandbox_id := r.sandbox_id, exit_code := r.exit_code,
              stdout := r.stdout, stderr := r.stderr,
              run_id := none, checkpoint := cp }

/-- Embedding of the tail of `Evolve.execute_command` (agent.py lines
299-304): neither `run_id` nor `checkpoint` is passed. -/
def executeCommandResult (r : RunBridgeResponse) : AgentResponse :=
  { sandbox_id := r.sandbox_id, exit_code := r.exit_code,
    stdout := r.stdout, stderr := r.stderr,
    run_id := none, checkpoint := none }

-- ===========================================================================
-- agent.py: RPC timeout computation
-- ===========================================================================

/-- Attribute view of a sandbox provider object as seen by
`getattr(self.sandbox, "timeout_ms", 3600000)`: the attribute may be absent. -/
structure SandboxAttrs where
  timeout_ms : Option Nat
deriving DecidableEq

/-- Default of the `timeout_ms` field of `config.E2BProvider` (config.py). -/
def e2bDefaultTimeoutMs : Nat := 3600000

/-- Embedding of `Evolve._get_rpc_timeout_s` (agent.py lines 184-189), with
exact rational arithmetic in place of Python floats. -/
def getRpcTimeoutS (timeout_ms : Option Nat) (sandbox : Option SandboxAttrs) : ℚ :=
  let t : Nat :=
    match timeout_ms with
    | some t => t
    | none =>
      match sandbox with
      | some sb => sb.timeout_ms.getD 3600000
      | none => 3600000
  (t : ℚ) / 1000 + 30

-- ===========================================================================
-- agent.py: get_output_files and read_file
-- ===========================================================================

/-- Embedding of `results.OutputResult` (dataclass), generic over the parsed
schema type. -/
structure OutputResult (D : Type) where
  files : List (String × FileContent)
  data : Option D
  error : Option String
  raw_data : Option String
deriving DecidableEq

/-- Schema configuration of an Evolve instance, as discriminated by
`get_output_files`: a Pydantic model or dataclass (CASE 1, carrying the
native validator `schema.validate_and_parse`, whose module is outside the
Python SDK sources and is kept abstract as a function that either returns
parsed data or raises), a raw JSON Schema dict (CASE 2), or none (CASE 3). -/
inductive SchemaSetting (D : Type) where
  | classSchema (validate : String → Except String D)
  | jsonSchemaDict
  | noSchema

/-- Bridge response payload for the `get_output_files` RPC. -/
structure OutputFilesResponse (D : Type) where
  files : List (String × TransportFile)
  data : Option D
  error : Option String
  raw_data : Option String

/-- Embedding of `files.get('result.json')` followed by
`raw_json.decode('utf-8') if isinstance(raw_json, bytes)`; `none` models a
raised `UnicodeDecodeError`. -/
def rawJsonString : FileContent → Option String
  | .text s => some s
  | .binary bs => decodeUtf8 bs

/-- Embedding of `Evolve.get_output_files` (agent.py lines 444-519) after the
bridge call: decode the transported files, then branch on the schema kind.
The `Except` layer models exceptions escaping the function. -/
def getOutputFiles {D : Type} (schema : SchemaSetting D) (resp : OutputFilesResponse D) :
    Except String (OutputResult D) :=
  let files := decodeAgentFiles resp.files
  match schema with
  | .classSchema validate =>
    match files.lookup "result.json" with
    | none =>
      Except.ok { files := files, data := none,
                  error := some "Schema provided but agent did not create output/result.json",
                  raw_data := none }
    | some content =>
      match rawJsonString content with
      | none => Except.error "UnicodeDecodeError"
      | some raw =>
        match validate raw with
        | Except.ok d =>
          Except.ok { files := files, data := some d, error := none, raw_data := none }
        | Except.error e =>
          Except.ok { files := files, data := none,
                      error := some ("Schema validation failed: " ++ e),
                      raw_data := some raw }
  | .jsonSchemaDict =>
    Except.ok { files := files, data := resp.data, error := resp.error,
                raw_data := resp.raw_data }
  | .noSchema =>
    Except.ok { files := files, data := none, error := none, raw_data := none }

/-- Embedding of the tail of `Evolve.read_file` (agent.py lines 439-442) on a
JSON bridge response (whose `content` field is a string): base64-tagged
content is decoded, anything else is UTF-8 encoded. -/
def readFileResult (content : String) (encoding : Option String) : List Nat :=
  if encoding = some "base64" then b64decode content
  else strToUTF8 content

-- ===========================================================================
-- agent.py: kill / _ensure_initialized lifecycle
-- ===========================================================================

/-- Controller state relevant to `kill` and `_ensure_initialized`:
whether the bridge subprocess is running, the `_initialized` flag, the
generation number of the sandbox session currently bound through the bridge
(`none` before any initialization), and a counter supplying fresh session
generations. The TypeScript bridge that actually allocates sandboxes is not
part of the Python SDK sources; its allocation of a fresh session on each
`initialize` RPC is modelled by the generation counter. -/
structure EvolveState where
  bridgeRunning : Bool
  initialized : Bool
  sandboxGen : Option Nat
  nextGen : Nat
deriving DecidableEq

/-- State of a freshly constructed `Evolve` instance. -/
def initialEvolveState : EvolveState :=
  { bridgeRunning := false, initialized := false, sandboxGen := none, nextGen := 0 }

/-- Embedding of `Evolve._ensure_initialized` (agent.py lines 116-162): a
no-op when `_initialized` is set; otherwise the bridge is started, the
`initialize` RPC binds a fresh sandbox session, and the flag is set. -/
def ensureInitialized (s : EvolveState) : EvolveState :=
  if s.initialized then s
  else { bridgeRunning := true, initialized := true,
         sandboxGen := some s.nextGen, nextGen := s.nextGen + 1 }

/-- Embedding of `Evolve.kill` (agent.py lines 663-675): after
`_ensure_initialized`, the `kill` RPC is attempted (its failure is the
boolean argument), and the `finally` block unconditionally stops the bridge
and clears `_initialized`; the returned boolean records whether the RPC
exception propagates out of `kill`. -/
def killOp (rpcRaises : Bool) (s : EvolveState) : EvolveState × Bool :=
  let s1 := ensureInitialized s
  ({ s1 with bridgeRunning := false, initialized := false }, rpcRaises)

/-- Generation-counter sanity: the bound session, if any, was minted by the
counter. Holds for every state reachable from `initialEvolveState`. -/
def EvolveState.genWF (s : EvolveState) : Prop :=
  match s.sandboxGen with
  | some g => g < s.nextGen
  | none => True

instance (s : EvolveState) : Decidable s.genWF :=
  match h : s.sandboxGen with
  | some _ => by unfold EvolveState.genWF; rw [h]; infer_instance
  | none => by unfold EvolveState.genWF; rw [h]; infer_instance

-- ===========================================================================
-- Swarm semaphore scheduling (modelled from the spec)
-- ===========================================================================

/-- Modelled from the spec: the swarm orchestrator (`evolve.swarm`, whose
sources are not under the Python SDK tree, only its unit tests) bounds total
parallelism with one counting semaphore of `P` permits; every scheduled unit
acquires a permit before running and releases it on completion, and ready
units start eagerly whenever a permit is free. A scheduler state counts the
units still waiting for a permit and the units in flight. -/
structure SwarmSched where
  waiting : Nat
  inflight : Nat
deriving DecidableEq

/-- Modelled from the spec: start as many waiting units as free permits allow. -/
def startUnits (P : Nat) (s : SwarmSched) : SwarmSched :=
  let k := min (P - s.inflight) s.waiting
  { waiting := s.waiting - k, inflight := s.inflight + k }

/-- Modelled from the spec: one in-flight unit completes, releasing its
permit, after which waiting units start eagerly. -/
def finishUnit (P : Nat) (s : SwarmSched) : SwarmSched :=
  startUnits P { waiting := s.waiting, inflight := s.inflight - 1 }

/-- Modelled from the spec: the scheduler trace of a swarm operation with
`total` units under `P` permits, observed after `n` unit completions. -/
def schedTrace (P total : Nat) : Nat → SwarmSched
  | 0 => startUnits P { waiting := total, inflight := 0 }
  | n + 1 => finishUnit P (schedTrace P total n)

-- ===========================================================================
-- utils.py: save_local_dir / read_local_dir
-- ===========================================================================

/-- Filesystem paths are embedded as lists of components; a filesystem state
is the finite map from absolute file path to file bytes. -/
abbrev FsPath := List String

/-- Bytes written for one FileMap value by `save_local_dir`: bytes verbatim
(`open(..., 'wb')`), strings UTF-8 encoded (`open(..., 'w', encoding='utf-8')`). -/
def contentBytes : FileContent → List Nat
  | .text s => strToUTF8 s
  | .binary bs => bs

/-- Embedding of `utils.save_local_dir` into an empty directory `base`: each
entry is written at `os.path.join(base, name)` (parents created as needed). -/
def saveLocalDir (base : FsPath) (files : List (FsPath × FileContent)) :
    List (FsPath × List Nat) :=
  files.map (fun f => (base ++ f.1, contentBytes f.2))

/-- Path of `p` relative to directory `base` (`Path.relative_to`), defined
only for strict descendants — mirroring which files `root.rglob('*')` yields. -/
def relUnder : FsPath → FsPath → Option FsPath
  | [], [] => none
  | [], p => some p
  | _ :: _, [] => none
  | b :: bs, c :: cs => if b = c then relUnder bs cs else none

/-- Embedding of `utils.read_local_dir(base, recursive=True)` over a
filesystem state: every file strictly under `base` is read as bytes and keyed
by its path relative to `base`. -/
def readLocalDir (base : FsPath) (fs : List (FsPath × List Nat)) :
    List (FsPath × List Nat) :=
  fs.filterMap (fun e => (relUnder base e.1).map (fun r => (r, e.2)))

-- ===========================================================================
-- Concrete sample inputs used by witnesses
-- ===========================================================================

/-- Sample bridge checkpoint dict carrying the four required keys. -/
def sampleCheckpointDict : CheckpointDict :=
  ⟨some "ckpt_1", some "h", some "evolve-1", some "2025-01-01T00:00:00Z",
   some 42, none, none, some "knowledge", none, none⟩

/-- Sample class-schema validator that accepts and returns the length. -/
def sampleLenValidator : String → Except String Nat := fun s => Except.ok s.length

/-- Sample class-schema validator that always rejects. -/
def sampleFailValidator : String → Except String Nat := fun _ => Except.error "bad type"

/-- Sample `get_output_files` bridge response with a text `result.json`. -/
def sampleOutputResp : OutputFilesResponse Nat :=
  ⟨[("result.json", ⟨"77", some "text"⟩)], none, none, none⟩

/-- The OutputResult produced for `sampleOutputResp` under `sampleLenValidator`. -/
def sampleOutputOk : OutputResult Nat :=
  ⟨[("result.json", FileContent.text "77")], some 2, none, none⟩

/-- Sample `get_output_files` bridge response whose `result.json` is rejected. -/
def sampleRespWithResult : OutputFilesResponse Nat :=
  ⟨[("result.json", ⟨"nope", some "text"⟩)], none, none, none⟩

-- ===========================================================================
-- Base64 lemmas
-- ===========================================================================

theorem b64index_b64char : ∀ i, i < 64 → b64index (b64char i) = i := by decide

theorem b64char_ne_pad : ∀ i, i < 64 → b64char i ≠ '=' := by decide

theorem b64_chunks_roundtrip : ∀ bs : List Nat, ValidBytes bs →
    b64decodeChunks (b64encodeChunks bs) = bs
  | [], _ => rfl
  | [a], h => by
      have ha : a < 256 := h a (by simp)
      have h1 : a / 4 < 64 := by omega
      have h2 : a % 4 * 16 < 64 := by omega
      simp only [b64encodeChunks, b64decodeChunks]
      rw [if_pos trivial]
      rw [b64index_b64char _ h1, b64index_b64char _ h2]
      simp only [List.cons.injEq, and_true]
      omega
  | [a, b], h => by
      have ha : a < 256 := h a (by simp)
      have hb : b < 256 := h b (by simp)
      have h1 : a / 4 < 64 := by omega
      have h2 : a % 4 * 16 + b / 16 < 64 := by omega
      have h3 : b % 16 * 4 < 64 := by omega
      simp only [b64encodeChunks, b64decodeChunks]
      rw [if_neg (b64char_ne_pad _ h3), if_pos trivial]
      rw [b64index_b64char _ h1, b64index_b64char _ h2, b64index_b64char _ h3]
      simp only [List.cons.injEq, and_true]
      constructor
      · omega
      · omega
  | a :: b :: c :: rest, h => by
      have ha : a < 256 := h a (by simp)
      have hb : b < 256 := h b (by simp)
      have hc : c < 256 := h c (by simp)
      have ih := b64_chunks_roundtrip rest (fun x hx => h x (by simp [hx]))
      have h1 : a / 4 < 64 := by omega
      have h2 : a % 4 * 16 + b / 16 < 64 := by omega
      have h3 : b % 16 * 4 + c / 64 < 64 := by omega
      have h4 : c % 64 < 64 := by omega
      simp only [b64encodeChunks, b64decodeChunks]
      rw [if_neg (b64char_ne_pad _ h3), if_neg (b64char_ne_pad _ h4)]
      rw [b64index_b64char _ h1, b64index_b64char _ h2, b64index_b64char _ h3,
        b64index_b64char _ h4, ih]
      simp only [List.cons.injEq, and_true]
      refine ⟨by omega, by omega, by omega⟩

theorem b64_roundtrip (bs : List Nat) (h : ValidBytes bs) :
    b64decode (b64encode bs) = bs := by
  unfold b64decode b64encode
  exact b64_chunks_roundtrip bs h

theorem decode_encode_file (c : FileContent) (h : c.wf) :
    decodeFileFromTransport (encodeFileForTransport c) = c := by
  cases c with
  | text s => rfl
  | binary bs =>
    simp [encodeFileForTransport, decodeFileFromTransport, b64_roundtrip bs h]

/-- C5: `_encode_files_for_transport` tags bytes values as base64 and string
values as text, and `_decode_files_from_transport` applied to the encoded map
returns a map equal to the original: same keys, same values, with the
text/binary distinction preserved. -/
theorem transport_roundtrip :
    (∀ s : String, encodeFileForTransport (FileContent.text s) =
        { content := s, encoding := some "text" }) ∧
    (∀ bs : List Nat, encodeFileForTransport (FileContent.binary bs) =
        { content := b64encode bs, encoding := some "base64" }) ∧
    (∀ files : List (String × FileContent), (∀ f ∈ files, f.2.wf) →
        decodeFilesFromTransport (encodeFilesForTransport files) = files) := by
  refine ⟨fun s => rfl, fun bs => rfl, ?_⟩
  intro files h
  induction files with
  | nil => rfl
  | cons f rest ih =>
    have hf : f.2.wf := h f (by simp)
    have hrest := ih (fun x hx => h x (by simp [hx]))
    unfold encodeFilesForTransport decodeFilesFromTransport at hrest ⊢
    simp only [List.map_cons, decode_encode_file f.2 hf, hrest]

/-- Witness for C5 at a concrete two-entry file map holding text and bytes. -/
theorem transport_roundtrip_witness :
    (∀ f ∈ [("a.txt", FileContent.text "hello"), ("b.bin", FileContent.binary [0, 255, 7])],
        FileContent.wf f.2) ∧
    decodeFilesFromTransport (encodeFilesForTransport
        [("a.txt", FileContent.text "hello"), ("b.bin", FileContent.binary [0, 255, 7])]) =
      [("a.txt", FileContent.text "hello"), ("b.bin", FileContent.binary [0, 255, 7])] :=
  ⟨by decide, transport_roundtrip.2.2 _ (by decide)⟩

/-- C8: on any bridge checkpoint dict carrying at least the required keys
`id`, `hash`, `tag` and `timestamp`, the three `_parse_checkpoint` copies in
agent.py, utils.py and storage_client.py agree: the first two return the same
`CheckpointInfo`, and the third returns that very value (it has no
falsy-input guard but coincides on this domain). -/
theorem checkpoint_parsers_agree (d : CheckpointDict) (i h t ts : String)
    (hid : d.id = some i) (hh : d.hash = some h) (ht : d.tag = some t)
    (hts : d.timestamp = some ts) :
    utilsParseCheckpoint (some d) = agentParseCheckpoint (some d) ∧
    agentParseCheckpoint (some d) = (storageParseCheckpoint d).map some := by
  have hfalsy : d.isFalsy = false := by
    unfold CheckpointDict.isFalsy
    rw [hid]
    simp
  simp only [agentParseCheckpoint, utilsParseCheckpoint, storageParseCheckpoint, hfalsy,
    getRequired, hid, hh, ht, hts, Except.map, Bool.false_eq_true, if_false]
  exact ⟨trivial, rfl⟩

/-- Witness for C8 at a concrete checkpoint dict. -/
theorem checkpoint_parsers_agree_witness :
    utilsParseCheckpoint (some sampleCheckpointDict) =
      agentParseCheckpoint (some sampleCheckpointDict) ∧
    agentParseCheckpoint (some sampleCheckpointDict) =
      (storageParseCheckpoint sampleCheckpointDict).map some :=
  checkpoint_parsers_agree sampleCheckpointDict "ckpt_1" "h" "evolve-1"
    "2025-01-01T00:00:00Z" rfl rfl rfl rfl

/-- C2 (failing-input evaluation): on the bridge response used by the SDK's
own unit test `tests/unit/test_cost_api.py::test_run_returns_run_id`, whose
`run_id` field is `'run-uuid-from-bridge'`, `Evolve.run` nevertheless builds
an `AgentResponse` with `run_id = None`; `execute_command` also yields
`run_id = None`. -/
theorem run_drops_run_id :
    runResult ⟨"sb-test", some "run-uuid-from-bridge", 0, "done", "", none⟩ =
      Except.ok ⟨"sb-test", 0, "done", "", none, none⟩ ∧
    (executeCommandResult ⟨"sb-test", some "run-uuid-from-bridge", 0, "hello", "", none⟩).run_id =
      none :=
  ⟨rfl, rfl⟩

/-- C4: with an explicit per-call timeout of `t` milliseconds the bridge RPC
timeout is exactly `t / 1000 + 30` seconds; with no per-call timeout it falls
back to the provider's `timeout_ms` attribute when present and to 3600000 ms
otherwise, making the default RPC timeout 3630 seconds (E2B's default
`timeout_ms` included). -/
theorem rpc_timeout_formula :
    (∀ (t : Nat) (sb : Option SandboxAttrs),
        getRpcTimeoutS (some t) sb = (t : ℚ) / 1000 + 30) ∧
    (∀ m : Nat, getRpcTimeoutS none (some { timeout_ms := some m }) = (m : ℚ) / 1000 + 30) ∧
    getRpcTimeoutS none (some { timeout_ms := none }) = 3630 ∧
    getRpcTimeoutS none none = 3630 ∧
    getRpcTimeoutS none (some { timeout_ms := some e2bDefaultTimeoutMs }) = 3630 := by
  refine ⟨fun t sb => rfl, fun m => rfl, ?_, ?_, ?_⟩ <;>
    norm_num [getRpcTimeoutS, e2bDefaultTimeoutMs]

/-- C9: `Evolve.read_file` always returns bytes on a well-formed bridge
response: content tagged `"base64"` is decoded back to the original bytes,
and text content is returned UTF-8 encoded. -/
theorem read_file_returns_bytes :
    (∀ bs : List Nat, ValidBytes bs →
        readFileResult (b64encode bs) (some "base64") = bs) ∧
    (∀ (s : String) (enc : Option String), enc ≠ some "base64" →
        readFileResult s enc = strToUTF8 s) := by
  constructor
  · intro bs h
    unfold readFileResult
    rw [if_pos rfl]
    exact b64_roundtrip bs h
  · intro s enc h
    unfold readFileResult
    rw [if_neg h]

/-- Witness for C9 at concrete base64 and text responses. -/
theorem read_file_returns_bytes_witness :
    ValidBytes [0, 255, 10] ∧
    readFileResult (b64encode [0, 255, 10]) (some "base64") = [0, 255, 10] ∧
    readFileResult "hi" none = strToUTF8 "hi" ∧
    strToUTF8 "hi" = [104, 105] :=
  ⟨by decide, read_file_returns_bytes.1 [0, 255, 10] (by decide),
   read_file_returns_bytes.2 "hi" none (by decide), by decide⟩

/-- C6: `kill()` is valid from any controller state; even when the kill RPC
raises, the `finally` block stops the bridge and clears `_initialized` before
`kill` completes (the RPC exception then propagates), and any operation
issued afterwards re-initializes against a fresh sandbox session, never the
killed one. -/
theorem kill_terminal (raises : Bool) (s : EvolveState) (hwf : s.genWF) :
    (killOp raises s).1.bridgeRunning = false ∧
    (killOp raises s).1.initialized = false ∧
    (killOp raises s).2 = raises ∧
    (∀ g, (killOp raises s).1.sandboxGen = some g →
        (ensureInitialized (killOp raises s).1).sandboxGen ≠ some g) := by
  refine ⟨rfl, rfl, rfl, ?_⟩
  intro g hg
  have hg1 : (ensureInitialized s).sandboxGen = some g := hg
  have hgen : (ensureInitialized (killOp raises s).1).sandboxGen
      = some (ensureInitialized s).nextGen := rfl
  rw [hgen]
  simp only [ne_eq, Option.some.injEq]
  by_cases hin : s.initialized = true
  · have h1 : ensureInitialized s = s := by
      unfold ensureInitialized
      rw [if_pos hin]
    rw [h1] at hg1 ⊢
    unfold EvolveState.genWF at hwf
    rw [hg1] at hwf
    omega
  · have h1 : (ensureInitialized s).sandboxGen = some s.nextGen := by
      unfold ensureInitialized
      rw [if_neg hin]
    have h2 : (ensureInitialized s).nextGen = s.nextGen + 1 := by
      unfold ensureInitialized
      rw [if_neg hin]
    rw [h1] at hg1
    rw [h2]
    simp only [Option.some.injEq] at hg1
    omega

/-- Witness for C6: killing an initialized controller bound to session 0
with a raising RPC. -/
theorem kill_terminal_witness :
    EvolveState.genWF ⟨true, true, some 0, 1⟩ ∧
    ((killOp true ⟨true, true, some 0, 1⟩).1.bridgeRunning = false ∧
     (killOp true ⟨true, true, some 0, 1⟩).1.initialized = false ∧
     (killOp true ⟨true, true, some 0, 1⟩).2 = true ∧
     (∀ g, (killOp true ⟨true, true, some 0, 1⟩).1.sandboxGen = some g →
        (ensureInitialized (killOp true ⟨true, true, some 0, 1⟩).1).sandboxGen ≠ some g)) :=
  ⟨by decide, kill_terminal true ⟨true, true, some 0, 1⟩ (by decide)⟩

theorem schedTrace_invariant (P total n : Nat) :
    (schedTrace P total n).inflight ≤ P ∧
    (schedTrace P total n).inflight + (schedTrace P total n).waiting ≤ total := by
  induction n with
  | zero =>
    dsimp only [schedTrace, startUnits]
    omega
  | succ n ih =>
    obtain ⟨h1, h2⟩ := ih
    dsimp only [schedTrace, finishUnit, startUnits]
    omega

/-- C7 (modelled from the spec, the swarm sources being outside the Python
SDK tree): under a counting semaphore with `P` permits and eager unit starts,
the in-flight count of a swarm operation with `total` units never exceeds
`P`, is bounded by `min P total` at every observation point, and attains
exactly `min P total` before the first completion, so the observed maximum
equals `min P total`. -/
theorem swarm_semaphore_bound (P total n : Nat) :
    (schedTrace P total n).inflight ≤ P ∧
    (schedTrace P total n).inflight ≤ min P total ∧
    (schedTrace P total 0).inflight = min P total := by
  obtain ⟨h1, h2⟩ := schedTrace_invariant P total n
  refine ⟨h1, by omega, ?_⟩
  dsimp only [schedTrace, startUnits]
  omega

/-- C1 counterexample: with a class schema configured and a bridge response
carrying no `result.json`, the returned OutputResult has a non-None `error`
but `raw_data = None` (and `data = None`), so neither `data` alone nor the
pair `(error, raw_data)` is populated, contradicting the claim as stated. -/
theorem output_result_pair_not_populated :
    ∃ r : OutputResult Nat,
      getOutputFiles (SchemaSetting.classSchema (fun _ => Except.ok 0))
          ⟨[], none, none, none⟩ = Except.ok r ∧
      r.error ≠ none ∧ r.raw_data = none ∧ r.data = none := by
  refine ⟨⟨[], none, some "Schema provided but agent did not create output/result.json", none⟩,
    rfl, by simp, rfl, rfl⟩

/-- C1 as amended: with a class schema, exactly one of `data` or `error` is
populated in the result; `raw_data` is populated only when a present
`result.json` failed validation (and then equals its decoded raw string),
and in the missing-file case `error` is set while `raw_data` stays None;
with no schema, `data`, `error` and `raw_data` are all None and only
`files` is set. -/
theorem output_result_exclusive {D : Type} :
    (∀ (validate : String → Except String D) (resp : OutputFilesResponse D) (r : OutputResult D),
        getOutputFiles (SchemaSetting.classSchema validate) resp = Except.ok r →
        ((r.data = none ↔ r.error.isSome = true) ∧
         (∀ raw, r.raw_data = some raw → r.error.isSome = true ∧
            ∃ c, (decodeAgentFiles resp.files).lookup "result.json" = some c ∧
              rawJsonString c = some raw) ∧
         ((decodeAgentFiles resp.files).lookup "result.json" = none →
            r.error.isSome = true ∧ r.raw_data = none))) ∧
    (∀ resp : OutputFilesResponse D,
        getOutputFiles (SchemaSetting.noSchema : SchemaSetting D) resp =
          Except.ok ⟨decodeAgentFiles resp.files, none, none, none⟩) := by
  constructor
  · intro validate resp r hr
    simp only [getOutputFiles] at hr
    cases hl : (decodeAgentFiles resp.files).lookup "result.json" with
    | none =>
      rw [hl] at hr
      simp only [Except.ok.injEq] at hr
      subst hr
      refine ⟨by simp, ?_, fun _ => ⟨rfl, rfl⟩⟩
      intro raw hraw
      simp at hraw
    | some c =>
      rw [hl] at hr
      dsimp only at hr
      cases hc : rawJsonString c with
      | none =>
        rw [hc] at hr
        simp at hr
      | some raw =>
        rw [hc] at hr
        dsimp only at hr
        cases hv : validate raw with
        | ok d =>
          rw [hv] at hr
          simp only [Except.ok.injEq] at hr
          subst hr
          refine ⟨by simp, ?_, ?_⟩
          · intro raw' hraw'
            simp at hraw'
          · intro hnone
            simp at hnone
        | error e =>
          rw [hv] at hr
          simp only [Except.ok.injEq] at hr
          subst hr
          refine ⟨by simp, ?_, ?_⟩
          · intro raw' hraw'
            simp only [Option.some.injEq] at hraw'
            subst hraw'
            exact ⟨rfl, c, rfl, hc⟩
          · intro hnone
            simp at hnone
  · intro resp
    rfl

/-- Witness for the amended C1 at a concrete validating response, plus the
no-schema shape at the same response. -/
theorem output_result_exclusive_witness :
    ((sampleOutputOk.data = none ↔ sampleOutputOk.error.isSome = true) ∧
     (∀ raw, sampleOutputOk.raw_data = some raw → sampleOutputOk.error.isSome = true ∧
        ∃ c, (decodeAgentFiles sampleOutputResp.files).lookup "result.json" = some c ∧
          rawJsonString c = some raw) ∧
     ((decodeAgentFiles sampleOutputResp.files).lookup "result.json" = none →
        sampleOutputOk.error.isSome = true ∧ sampleOutputOk.raw_data = none)) ∧
    getOutputFiles (SchemaSetting.noSchema : SchemaSetting Nat) sampleOutputResp =
      Except.ok ⟨decodeAgentFiles sampleOutputResp.files, none, none, none⟩ :=
  ⟨output_result_exclusive.1 sampleLenValidator sampleOutputResp sampleOutputOk rfl,
   output_result_exclusive.2 sampleOutputResp⟩

/-- C3 counterexample: with a class schema configured and `result.json`
missing, `get_output_files` does return without raising, but the result has
`raw_data = None` rather than "raw_data set to the raw result.json string",
contradicting the claim's missing-file clause. -/
theorem get_output_files_missing_no_raw :
    ∃ r : OutputResult Nat,
      getOutputFiles (SchemaSetting.classSchema (fun _ => Except.error "invalid"))
          ⟨[("other.txt", ⟨"hi", some "text"⟩)], none, none, none⟩ = Except.ok r ∧
      r.error ≠ none ∧ r.raw_data = none := by
  refine ⟨⟨[("other.txt", FileContent.text "hi")], none,
    some "Schema provided but agent did not create output/result.json", none⟩,
    rfl, by simp, rfl⟩

/-- C3 as amended: with a class schema and a bridge response whose
`result.json`, when present, decodes as text/UTF-8, `get_output_files` never
raises; a missing file yields `data=None`, a non-None `error` and
`raw_data=None`, and a validation failure yields `data=None`, a non-None
`error` and `raw_data` equal to the raw `result.json` string. -/
theorem get_output_files_no_raise {D : Type} (validate : String → Except String D)
    (resp : OutputFilesResponse D)
    (hutf : ∀ c, (decodeAgentFiles resp.files).lookup "result.json" = some c →
        (rawJsonString c).isSome = true) :
    (∃ r, getOutputFiles (SchemaSetting.classSchema validate) resp = Except.ok r) ∧
    ((decodeAgentFiles resp.files).lookup "result.json" = none →
        getOutputFiles (SchemaSetting.classSchema validate) resp =
          Except.ok ⟨decodeAgentFiles resp.files, none,
            some "Schema provided but agent did not create output/result.json", none⟩) ∧
    (∀ c raw e, (decodeAgentFiles resp.files).lookup "result.json" = some c →
        rawJsonString c = some raw → validate raw = Except.error e →
        getOutputFiles (SchemaSetting.classSchema validate) resp =
          Except.ok ⟨decodeAgentFiles resp.files, none,
            some ("Schema validation failed: " ++ e), some raw⟩) := by
  refine ⟨?_, ?_, ?_⟩
  · cases hl : (decodeAgentFiles resp.files).lookup "result.json" with
    | none =>
      refine ⟨⟨decodeAgentFiles resp.files, none,
        some "Schema provided but agent did not create output/result.json", none⟩, ?_⟩
      simp only [getOutputFiles, hl]
    | some c =>
      cases hc : rawJsonString c with
      | none =>
        have := hutf c hl
        rw [hc] at this
        simp at this
      | some raw =>
        cases hv : validate raw with
        | ok d =>
          refine ⟨⟨decodeAgentFiles resp.files, some d, none, none⟩, ?_⟩
          simp only [getOutputFiles, hl, hc, hv]
        | error e =>
          refine ⟨⟨decodeAgentFiles resp.files, none,
            some ("Schema validation failed: " ++ e), some raw⟩, ?_⟩
          simp only [getOutputFiles, hl, hc, hv]
  · intro hl
    simp only [getOutputFiles, hl]
  · intro c raw e hl hc hv
    simp only [getOutputFiles, hl, hc, hv]

/-- Witness for the amended C3 at a concrete rejecting validator and a text
`result.json`. -/
theorem get_output_files_no_raise_witness :
    (∃ r, getOutputFiles (SchemaSetting.classSchema sampleFailValidator) sampleRespWithResult =
        Except.ok r) ∧
    ((decodeAgentFiles sampleRespWithResult.files).lookup "result.json" = none →
        getOutputFiles (SchemaSetting.classSchema sampleFailValidator) sampleRespWithResult =
          Except.ok ⟨decodeAgentFiles sampleRespWithResult.files, none,
            some "Schema provided but agent did not create output/result.json", none⟩) ∧
    (∀ c raw e,
        (decodeAgentFiles sampleRespWithResult.files).lookup "result.json" = some c →
        rawJsonString c = some raw → sampleFailValidator raw = Except.error e →
        getOutputFiles (SchemaSetting.classSchema sampleFailValidator) sampleRespWithResult =
          Except.ok ⟨decodeAgentFiles sampleRespWithResult.files, none,
            some ("Schema validation failed: " ++ e), some raw⟩) :=
  get_output_files_no_raise sampleFailValidator sampleRespWithResult (by
    intro c hc
    rw [show (decodeAgentFiles sampleRespWithResult.files).lookup "result.json" =
        some (FileContent.text "nope") from rfl] at hc
    cases hc
    rfl)

theorem relUnder_append : ∀ (base n : FsPath), n ≠ [] → relUnder base (base ++ n) = some n
  | [], n, h => by
    cases n with
    | nil => exact absurd rfl h
    | cons a l => rfl
  | b :: bs, n, h => by
    simp only [List.cons_append, relUnder, if_pos rfl]
    exact relUnder_append bs n h

theorem read_save_helper (base : FsPath) : ∀ files : List (FsPath × FileContent),
    (∀ f ∈ files, f.1 ≠ []) →
    readLocalDir base (saveLocalDir base files) = files.map (fun f => (f.1, contentBytes f.2))
  | [], _ => rfl
  | f :: rest, h => by
    have h1 : f.1 ≠ [] := h f (by simp)
    have ih := read_save_helper base rest (fun x hx => h x (by simp [hx]))
    unfold saveLocalDir readLocalDir at ih ⊢
    simp only [List.map_cons, List.filterMap_cons, relUnder_append base f.1 h1,
      Option.map_some', ih]

/-- C10: `save_local_dir` followed by `read_local_dir(recursive=True)` is
content-preserving: for a well-formed FileMap (nonempty relative paths,
pairwise distinct and non-nested, so each entry is written as a plain file),
saving into an empty directory and reading it back yields exactly the
original keys, with each value equal to the original bytes — string values
compared after UTF-8 encoding. -/
theorem save_read_local_dir_roundtrip (base : FsPath) (files : List (FsPath × FileContent))
    (hne : ∀ f ∈ files, f.1 ≠ [])
    (_hnodup : (files.map Prod.fst).Nodup)
    (_hsep : files.Pairwise (fun f g => relUnder f.1 g.1 = none ∧ relUnder g.1 f.1 = none)) :
    readLocalDir base (saveLocalDir base files) =
      files.map (fun f => (f.1, contentBytes f.2)) :=
  read_save_helper base files hne

/-- Witness for C10 at a concrete directory with one text file and one
nested binary file. -/
theorem save_read_local_dir_roundtrip_witness :
    readLocalDir ["out"]
        (saveLocalDir ["out"]
          [(["a.txt"], FileContent.text "hi"), (["sub", "b.bin"], FileContent.binary [1, 2])]) =
      [(["a.txt"], FileContent.text "hi"),
       (["sub", "b.bin"], FileContent.binary [1, 2])].map (fun f => (f.1, contentBytes f.2)) :=
  save_read_local_dir_roundtrip ["out"]
    [(["a.txt"], FileContent.text "hi"), (["sub", "b.bin"], FileContent.binary [1, 2])]
    (by decide) (by decide) (by decide)

end EvolveSpec
